import Mathlib

/-!
Verification of the `POST /api/generate-image` handler of `server.js`
(an Express relay that forwards a text description to the Replicate
image-generation API and normalises the provider's response).

The handler is embedded shallowly:

* `Json` models the JavaScript values the handler inspects (request body
  fields, the parsed upstream body).  JS truthiness, field access on
  possibly-non-object values, and template-literal stringification are
  modelled by `Json.truthy`, `Json.getField` and `Json.jsToString`.
* `FetchOutcome` models the awaited `fetch` call: either the promise
  rejects (`throws`), or a response arrives with an HTTP status, an
  optional `content-type` header and a body whose `.json()` parse either
  succeeds (`some data`) or throws (`none`).
* `handleGenerateImage` is the handler: it returns the list of outbound
  provider requests it issued (empty when it fails before the call,
  a singleton otherwise — the code has no retry) together with the HTTP
  response sent to the client.
-/

/-- JavaScript/JSON values, as the handler sees them. -/
inductive Json where
  | null
  | bool (b : Bool)
  | num (n : Int)
  | str (s : String)
  | arr (elems : List Json)
  | obj (fields : List (String × Json))

/-- JS truthiness: `null`, `false`, `0` and `""` are falsy; every array
and object is truthy. -/
def Json.truthy : Json → Bool
  | Json.null => false
  | Json.bool b => b
  | Json.num n => n != 0
  | Json.str s => !s.data.isEmpty
  | Json.arr _ => true
  | Json.obj _ => true

/-- Truthiness of a possibly-absent value (`undefined` is falsy). -/
def optTruthy : Option Json → Bool
  | none => false
  | some v => v.truthy

/-- First binding of a key in an object's field list. -/
def lookupField : List (String × Json) → String → Option Json
  | [], _ => none
  | (k, v) :: rest, key => if k = key then some v else lookupField rest key

/-- Field access on a JS value: a field of an object, `undefined` (here
`none`) on a missing field or a non-object.  This is exactly `v?.f`
(optional chaining, as on the handler's error path); plain `v.f` agrees
with it on every value except `null`, where plain access throws a
TypeError — `processUpstream` models that throw where the code performs
it. -/
def Json.getField : Json → String → Option Json
  | Json.obj fields, key => lookupField fields key
  | _, _ => none

mutual

/-- `String(v)` / template-literal stringification of a JS value. -/
def Json.jsToString : Json → String
  | Json.null => "null"
  | Json.bool true => "true"
  | Json.bool false => "false"
  | Json.num n => toString n
  | Json.str s => s
  | Json.arr xs => String.intercalate "," (Json.jsToStringElems xs)
  | Json.obj _ => "[object Object]"

/-- Array elements stringify recursively, except `null`, which joins
as the empty string. -/
def Json.jsToStringElems : List Json → List String
  | [] => []
  | Json.null :: rest => "" :: Json.jsToStringElems rest
  | v :: rest => Json.jsToString v :: Json.jsToStringElems rest

end

/-- `String(x)` where `x` may be `undefined` (an absent field). -/
def jsDisplay : Option Json → String
  | none => "undefined"
  | some v => v.jsToString

/-- `a || b` on JS values: `a` when present and truthy, else `b`. -/
def jsOr (a : Option Json) (b : Json) : Json :=
  match a with
  | some v => if v.truthy then v else b
  | none => b

/-- Does one character list start with another? -/
def listStartsWith : List Char → List Char → Bool
  | _, [] => true
  | [], _ :: _ => false
  | a :: as, b :: bs => a == b && listStartsWith as bs

/-- Does one character list contain another as a contiguous run? -/
def listContainsSeq : List Char → List Char → Bool
  | [], pat => pat.isEmpty
  | a :: as, pat => listStartsWith (a :: as) pat || listContainsSeq as pat

/-- JS `s.startsWith(pat)`. -/
def strStartsWith (s pat : String) : Bool :=
  listStartsWith s.data pat.data

/-- JS `s.includes(pat)` (substring containment). -/
def strContains (s pat : String) : Bool :=
  listContainsSeq s.data pat.data

/-- Leading and trailing whitespace removed from a character list. -/
def trimChars (cs : List Char) : List Char :=
  ((cs.dropWhile Char.isWhitespace).reverse.dropWhile Char.isWhitespace).reverse

/-- JS `s.trim()`. -/
def jsTrim (s : String) : String :=
  String.mk (trimChars s.data)

/-- The validation at the top of the handler:
`!description || typeof description !== 'string' || description.trim().length === 0`.
Returns the trimmed description when it passes, `none` when the handler
answers 400.  (A falsy string is exactly `""`, whose trim is also empty,
so the three checks collapse to: a string whose trim is non-empty.) -/
def validDescription : Option Json → Option String
  | some (Json.str s) =>
      match trimChars s.data with
      | [] => none
      | c :: cs => some (String.mk (c :: cs))
  | _ => none

/-- The fixed provider endpoint. -/
def REPLICATE_API_URL : String :=
  "https://api.replicate.com/v1/models/black-forest-labs/flux-1.1-pro/predictions"

/-- The JSON body sent to the provider. -/
def replicateRequestBody (prompt : String) : Json :=
  Json.obj [("input", Json.obj [("prompt", Json.str prompt),
                                ("prompt_upsampling", Json.bool true)])]

/-- The outbound HTTP request the handler issues. -/
structure OutboundRequest where
  url : String
  method : String
  authorization : String
  contentType : String
  prefer : String
  body : Json

/-- The single `fetch` call of the handler, headers and body as written. -/
def mkReplicateRequest (prompt token : String) : OutboundRequest :=
  { url := REPLICATE_API_URL
    method := "POST"
    authorization := "Bearer " ++ token
    contentType := "application/json"
    prefer := "wait"
    body := replicateRequestBody prompt }

/-- The upstream response as the handler observes it: HTTP status,
optional `content-type` header, and the result of `.json()` on the body
(`none` when parsing throws). -/
structure UpstreamResponse where
  httpStatus : Nat
  contentType : Option String
  bodyJson : Option Json

/-- The awaited outbound call: the promise rejects, or a response arrives. -/
inductive FetchOutcome where
  | throws
  | success (resp : UpstreamResponse)

/-- The response sent back to the client. -/
structure HttpResponse where
  status : Nat
  body : Json

/-- A JSON error body. -/
def errObj (msg : String) : Json :=
  Json.obj [("error", Json.str msg)]

/-- `response.ok` of `fetch`: status in the 2xx range. -/
def respOk (status : Nat) : Bool :=
  200 ≤ status && status ≤ 299

/-- `headers.get('content-type')?.includes('application/json') === true`. -/
def contentTypeIsJson : Option String → Bool
  | none => false
  | some ct => strContains ct "application/json"

/-- `responseData.status === 'succeeded' || responseData.status === 'processing'`. -/
def statusEligible : Option Json → Bool
  | some (Json.str s) => s == "succeeded" || s == "processing"
  | _ => false

/-- The extraction block: `imageUrlToSend` after the success-logic `if`s.
Only when the body's `status` field is `'succeeded'` or `'processing'`
and its `output` field is truthy, the first element of a non-empty array
output, or a string output itself, is taken. -/
def extractImageUrl (data : Json) : Option Json :=
  if statusEligible (data.getField "status") && optTruthy (data.getField "output") then
    match data.getField "output" with
    | some (Json.arr (x :: _)) => some x
    | some (Json.str s) => some (Json.str s)
    | _ => none
  else none

/-- The 502 message of the final-check failure branch, embedding
`responseData.status` via the template literal. -/
def failMessage (data : Json) : String :=
  "Image service returned status '" ++ jsDisplay (data.getField "status") ++
    "' or did not provide a valid image URL."

/-- The final check: send 200 with the URL when `imageUrlToSend` is a
string starting with `"http"`, else 502 with `failMessage`. -/
def successBranch (data : Json) : HttpResponse :=
  match extractImageUrl data with
  | some (Json.str s) =>
      if strStartsWith s "http" then
        ⟨200, Json.obj [("imageUrl", Json.str s)]⟩
      else ⟨502, errObj (failMessage data)⟩
  | _ => ⟨502, errObj (failMessage data)⟩

/-- `responseData?.error || responseData?.detail || 'Replicate API Status: N'`. -/
def errorDetail (data : Json) (status : Nat) : Json :=
  jsOr (data.getField "error")
    (jsOr (data.getField "detail")
      (Json.str ("Replicate API Status: " ++ toString status)))

/-- The 500 answer of the catch block. -/
def internalError : HttpResponse :=
  ⟨500, errObj "Internal server error during image generation call."⟩

/-- The 2xx tail of the handler.  When the parsed body is the JSON
literal `null`, the plain accesses `responseData.status` (the log line
and the success logic) throw a TypeError that lands in the catch block,
so the handler answers 500; on every other parsed body the success
logic runs. -/
def okBody : Json → HttpResponse
  | Json.null => internalError
  | data => successBranch data

/-- Everything after the `fetch` call: the non-2xx/non-JSON early 502,
the `.json()` parse (whose throw lands in the catch block), the non-2xx
502 with upstream detail (read with optional chaining, so safe on any
body), and the success logic — whose plain property accesses throw on a
`null` body, landing in the catch block (`okBody`). -/
def processUpstream : FetchOutcome → HttpResponse
  | FetchOutcome.throws => internalError
  | FetchOutcome.success resp =>
      if !respOk resp.httpStatus && !contentTypeIsJson resp.contentType then
        ⟨502, errObj ("Image service connection failed with status: " ++
          toString resp.httpStatus)⟩
      else
        match resp.bodyJson with
        | none => internalError
        | some data =>
            if !respOk resp.httpStatus then
              ⟨502, errObj ("Failed to generate image. " ++
                (errorDetail data resp.httpStatus).jsToString)⟩
            else okBody data

/-- JS truthiness of the credential string (`!replicateApiToken`). -/
def tokenTruthy : Option String → Bool
  | none => false
  | some s => !s.data.isEmpty

/-- The whole handler, from the request's `description` field and the
`REPLICATE_API_TOKEN` environment value.  Returns the outbound provider
requests actually issued (none before validation/configuration pass,
exactly one afterwards) and the HTTP response sent to the client. -/
def handleGenerateImage (description : Option Json) (token : Option String)
    (fetch : FetchOutcome) : List OutboundRequest × HttpResponse :=
  match validDescription description with
  | none => ([], ⟨400, errObj "Missing or invalid image description."⟩)
  | some trimmed =>
      if tokenTruthy token = false then
        ([], ⟨500, errObj "Image generation service is not configured correctly."⟩)
      else
        match token with
        | none => ([], ⟨500, errObj "Image generation service is not configured correctly."⟩)
        | some tok => ([mkReplicateRequest trimmed tok], processUpstream fetch)

/-- The candidate URL as the specification words it: the first element
when `output` is a non-empty array, `output` itself when it is a string,
nothing otherwise.  Stated from the spec, to be compared with the code's
`extractImageUrl`. -/
def specCandidate : Option Json → Option Json
  | some (Json.arr (x :: _)) => some x
  | some (Json.str s) => some (Json.str s)
  | _ => none

/-! ## Helper lemmas -/

theorem respOk_true {s : Nat} (h1 : 200 ≤ s) (h2 : s ≤ 299) : respOk s = true := by
  simp [respOk, h1, h2]

theorem respOk_false {s : Nat} (h : ¬(200 ≤ s ∧ s ≤ 299)) : respOk s = false := by
  simp [respOk]
  omega

theorem okBody_ne_null {d : Json} (hn : d ≠ Json.null) :
    okBody d = successBranch d := by
  cases d with
  | null => exact absurd rfl hn
  | bool b => rfl
  | num n => rfl
  | str s => rfl
  | arr l => rfl
  | obj f => rfl

theorem processUpstream_ok {s : Nat} {ct : Option String} {d : Json}
    (h : respOk s = true) (hn : d ≠ Json.null) :
    processUpstream (FetchOutcome.success ⟨s, ct, some d⟩) = successBranch d := by
  simp [processUpstream, h, okBody_ne_null hn]

theorem processUpstream_ok_null {s : Nat} {ct : Option String}
    (h : respOk s = true) :
    processUpstream (FetchOutcome.success ⟨s, ct, some Json.null⟩) = internalError := by
  simp [processUpstream, h, okBody]

theorem getField_some_ne_null {data : Json} {k : String} {v : Json}
    (h : data.getField k = some v) : data ≠ Json.null := by
  intro he
  subst he
  simp [Json.getField] at h

theorem strData_append (a b : String) : (a ++ b).data = a.data ++ b.data := by
  cases a
  cases b
  rfl

theorem listStartsWith_append (b c : List Char) : listStartsWith (b ++ c) b = true := by
  induction b with
  | nil => cases c <;> rfl
  | cons x xs ih => simp [listStartsWith, ih]

theorem listContainsSeq_append_left (x : List Char) {r pat : List Char}
    (h : listContainsSeq r pat = true) : listContainsSeq (x ++ r) pat = true := by
  induction x with
  | nil => simpa using h
  | cons a as ih => simp [listContainsSeq, ih]

theorem listContainsSeq_self_append (b c : List Char) :
    listContainsSeq (b ++ c) b = true := by
  cases hbc : b ++ c with
  | nil =>
      have hb : b = [] := by
        cases b with
        | nil => rfl
        | cons x xs => simp at hbc
      simp [hb, listContainsSeq, List.isEmpty]
  | cons y ys =>
      rw [← hbc]
      cases b with
      | nil => cases c <;> simp [listContainsSeq, listStartsWith, List.isEmpty]
      | cons x xs =>
          have h := listStartsWith_append (x :: xs) c
          simp only [listContainsSeq, Bool.or_eq_true]
          exact Or.inl h

theorem strContains_append_right (a b : String) : strContains (a ++ b) b = true := by
  unfold strContains
  rw [strData_append]
  have h0 : listContainsSeq (b.data ++ []) b.data = true := listContainsSeq_self_append b.data []
  rw [List.append_nil] at h0
  exact listContainsSeq_append_left a.data h0

theorem strContains_mid (a b c : String) : strContains (a ++ b ++ c) b = true := by
  unfold strContains
  rw [strData_append, strData_append, List.append_assoc]
  exact listContainsSeq_append_left a.data (listContainsSeq_self_append b.data c.data)

theorem dropWhile_dropWhile (p : Char → Bool) (l : List Char) :
    (l.dropWhile p).dropWhile p = l.dropWhile p := by
  induction l with
  | nil => rfl
  | cons a as ih =>
      by_cases h : p a = true
      · simp [List.dropWhile_cons, h, ih]
      · simp [List.dropWhile_cons, h]

theorem exists_append_dropWhile (p : Char → Bool) (l : List Char) :
    ∃ t, t ++ l.dropWhile p = l := by
  induction l with
  | nil => exact ⟨[], rfl⟩
  | cons a as ih =>
      by_cases h : p a = true
      · obtain ⟨t, ht⟩ := ih
        exact ⟨a :: t, by simp [List.dropWhile_cons, h, ht]⟩
      · exact ⟨[], by simp [List.dropWhile_cons, h]⟩

theorem dropWhile_eq_self_of_append (p : Char → Bool) (l t : List Char)
    (h : (l ++ t).dropWhile p = l ++ t) : l.dropWhile p = l := by
  cases l with
  | nil => rfl
  | cons a as =>
      by_cases hp : p a = true
      · exfalso
        rw [List.cons_append, List.dropWhile_cons, if_pos hp] at h
        have hlen := (List.dropWhile_sublist (l := as ++ t) p).length_le
        rw [h] at hlen
        simp at hlen
      · simp [List.dropWhile_cons, hp]

theorem trimChars_idem (cs : List Char) : trimChars (trimChars cs) = trimChars cs := by
  have hidem_a : (cs.dropWhile Char.isWhitespace).dropWhile Char.isWhitespace
      = cs.dropWhile Char.isWhitespace := dropWhile_dropWhile _ cs
  obtain ⟨t, ht⟩ :=
    exists_append_dropWhile Char.isWhitespace (cs.dropWhile Char.isWhitespace).reverse
  have hba :
      ((cs.dropWhile Char.isWhitespace).reverse.dropWhile Char.isWhitespace).reverse
          ++ t.reverse
        = cs.dropWhile Char.isWhitespace := by
    have h2 := congrArg List.reverse ht
    simpa [List.reverse_append] using h2
  have hb_self :
      (((cs.dropWhile Char.isWhitespace).reverse.dropWhile Char.isWhitespace).reverse).dropWhile
          Char.isWhitespace
        = ((cs.dropWhile Char.isWhitespace).reverse.dropWhile Char.isWhitespace).reverse := by
    apply dropWhile_eq_self_of_append Char.isWhitespace _ t.reverse
    rw [hba]
    exact hidem_a
  show trimChars (trimChars cs) = trimChars cs
  unfold trimChars
  rw [hb_self, List.reverse_reverse, dropWhile_dropWhile]

theorem validDescription_trim (s : String) :
    validDescription (some (Json.str (jsTrim s)))
      = validDescription (some (Json.str s)) := by
  simp only [validDescription]
  rw [show (jsTrim s).data = trimChars s.data from rfl, trimChars_idem]

theorem handle_congr (d1 d2 : Option Json) (token : Option String) (fetch : FetchOutcome)
    (h : validDescription d1 = validDescription d2) :
    handleGenerateImage d1 token fetch = handleGenerateImage d2 token fetch := by
  unfold handleGenerateImage
  rw [h]

theorem handle_valid (s tok : String) (fetch : FetchOutcome)
    (hvalid : trimChars s.data ≠ []) (htok : tok.data ≠ []) :
    handleGenerateImage (some (Json.str s)) (some tok) fetch
      = ([mkReplicateRequest (jsTrim s) tok], processUpstream fetch) := by
  cases hcs : trimChars s.data with
  | nil => exact absurd hcs hvalid
  | cons c cs =>
      cases hd : tok.data with
      | nil => exact absurd hd htok
      | cons a as =>
          have hjt : jsTrim s = String.mk (c :: cs) := by
            unfold jsTrim
            rw [hcs]
          simp [handleGenerateImage, validDescription, hcs, tokenTruthy, hd, hjt]

theorem statusEligible_iff (st : Option Json) :
    statusEligible st = true ↔
      st = some (Json.str "succeeded") ∨ st = some (Json.str "processing") := by
  cases st with
  | none => simp [statusEligible]
  | some v =>
      cases v with
      | str s =>
          simp only [statusEligible, Bool.or_eq_true, beq_iff_eq]
          constructor
          · rintro (rfl | rfl)
            · exact Or.inl rfl
            · exact Or.inr rfl
          · rintro (h | h)
            · exact Or.inl (by injection h with h2; injection h2)
            · exact Or.inr (by injection h with h2; injection h2)
      | null => simp [statusEligible]
      | bool b => simp [statusEligible]
      | num n => simp [statusEligible]
      | arr l => simp [statusEligible]
      | obj f => simp [statusEligible]

theorem extractImageUrl_eq_spec (data : Json)
    (helig : statusEligible (data.getField "status") = true)
    (htr : optTruthy (data.getField "output") = true) :
    extractImageUrl data = specCandidate (data.getField "output") := by
  unfold extractImageUrl
  rw [helig, htr]
  simp only [Bool.and_self, if_true]
  cases hout : data.getField "output" with
  | none => rfl
  | some v =>
      cases v with
      | arr l => cases l <;> rfl
      | null => rfl
      | bool b => rfl
      | num n => rfl
      | str s2 => rfl
      | obj f => rfl

theorem extractImageUrl_some (data : Json) (v : Json)
    (h : extractImageUrl data = some v) :
    statusEligible (data.getField "status") = true ∧
    optTruthy (data.getField "output") = true ∧
    specCandidate (data.getField "output") = some v := by
  unfold extractImageUrl at h
  by_cases hc : (statusEligible (data.getField "status")
      && optTruthy (data.getField "output")) = true
  · rw [if_pos hc] at h
    rw [Bool.and_eq_true] at hc
    refine ⟨hc.1, hc.2, ?_⟩
    rw [← h]
    cases hout : data.getField "output" with
    | none => rfl
    | some w =>
        cases w with
        | arr l => cases l <;> rfl
        | null => rfl
        | bool b => rfl
        | num n => rfl
        | str s2 => rfl
        | obj f => rfl
  · rw [if_neg hc] at h
    cases h

theorem specCandidate_isSome (out : Option Json) (v : Json)
    (h : specCandidate out = some v) : out.isSome = true := by
  cases out with
  | none => cases h
  | some w => rfl

theorem optTruthy_of_candidate_http (out : Option Json) (s : String)
    (hc : specCandidate out = some (Json.str s))
    (hh : strStartsWith s "http" = true) : optTruthy out = true := by
  cases out with
  | none => cases hc
  | some w =>
      cases w with
      | arr l =>
          cases l with
          | nil => cases hc
          | cons x xs => rfl
      | str s2 =>
          have hs : s2 = s := by
            injection hc with h2
            injection h2
          subst hs
          cases hd : s2.data with
          | nil =>
              exfalso
              unfold strStartsWith at hh
              rw [hd] at hh
              cases hh
          | cons c cs => simp [optTruthy, Json.truthy, hd]
      | null => cases hc
      | bool b => cases hc
      | num n => cases hc
      | obj f => cases hc

theorem successBranch_200 (data : Json) (s : String)
    (hext : extractImageUrl data = some (Json.str s))
    (hh : strStartsWith s "http" = true) :
    successBranch data = ⟨200, Json.obj [("imageUrl", Json.str s)]⟩ := by
  unfold successBranch
  rw [hext]
  simp [hh]

theorem successBranch_fail (data : Json)
    (h : ∀ s, extractImageUrl data = some (Json.str s) → strStartsWith s "http" = false) :
    successBranch data = ⟨502, errObj (failMessage data)⟩ := by
  unfold successBranch
  cases hext : extractImageUrl data with
  | none => rfl
  | some v =>
      cases v with
      | str s =>
          have hs := h s hext
          simp [hs]
      | null => rfl
      | bool b => rfl
      | num n => rfl
      | arr l => rfl
      | obj f => rfl

theorem successBranch_200_iff (data : Json) :
    (successBranch data).status = 200 ↔
      ∃ s, extractImageUrl data = some (Json.str s) ∧ strStartsWith s "http" = true := by
  constructor
  · intro h200
    unfold successBranch at h200
    cases hext : extractImageUrl data with
    | none => rw [hext] at h200; cases h200
    | some v =>
        cases v with
        | str s =>
            rw [hext] at h200
            by_cases hh : strStartsWith s "http" = true
            · exact ⟨s, rfl, hh⟩
            · rw [Bool.not_eq_true] at hh
              simp [hh] at h200
        | null => rw [hext] at h200; cases h200
        | bool b => rw [hext] at h200; cases h200
        | num n => rw [hext] at h200; cases h200
        | arr l => rw [hext] at h200; cases h200
        | obj f => rw [hext] at h200; cases h200
  · rintro ⟨s, hext, hh⟩
    rw [successBranch_200 data s hext hh]

/-! ## Claim theorems -/

/-- C4: for every request whose description field is missing, not a
string, or empty after trimming whitespace, the handler returns status
400 with the exact body saying "Missing or invalid image description.",
and no outbound call to the provider is made. -/
theorem invalid_description_400 (d : Option Json) (token : Option String)
    (fetch : FetchOutcome)
    (h : d = none ∨ (∀ s, d ≠ some (Json.str s)) ∨
         ∃ s, d = some (Json.str s) ∧ trimChars s.data = []) :
    handleGenerateImage d token fetch
      = ([], ⟨400, errObj "Missing or invalid image description."⟩) := by
  have hv : validDescription d = none := by
    rcases h with h | h | ⟨s, rfl, hs⟩
    · rw [h]; rfl
    · cases d with
      | none => rfl
      | some v =>
          cases v with
          | str s => exact absurd rfl (h s)
          | null => rfl
          | bool b => rfl
          | num n => rfl
          | arr l => rfl
          | obj f => rfl
    · simp [validDescription, hs]
  simp [handleGenerateImage, hv]

/-- C4 witness: a whitespace-only description is rejected with 400 and
no provider call. -/
theorem invalid_description_400_witness :
    handleGenerateImage (some (Json.str "   ")) (some "tok") FetchOutcome.throws
      = ([], ⟨400, errObj "Missing or invalid image description."⟩) :=
  invalid_description_400 (some (Json.str "   ")) (some "tok") FetchOutcome.throws
    (Or.inr (Or.inr ⟨"   ", rfl, by decide⟩))

/-- C5: for every request with a valid description, if the provider
credential is absent from process configuration the handler returns 500
with the exact body saying the service is not configured correctly, and
no outbound call is made. -/
theorem missing_token_500 (s : String) (fetch : FetchOutcome)
    (hvalid : trimChars s.data ≠ []) :
    handleGenerateImage (some (Json.str s)) none fetch
      = ([], ⟨500, errObj "Image generation service is not configured correctly."⟩) := by
  cases hcs : trimChars s.data with
  | nil => exact absurd hcs hvalid
  | cons c cs => simp [handleGenerateImage, validDescription, hcs, tokenTruthy]

/-- C5 witness: a valid description with no credential configured. -/
theorem missing_token_500_witness :
    handleGenerateImage (some (Json.str "a cat")) none FetchOutcome.throws
      = ([], ⟨500, errObj "Image generation service is not configured correctly."⟩) :=
  missing_token_500 "a cat" FetchOutcome.throws (by decide)

/-- C6: for every request that passes validation and the configuration
check, an exception from the outbound call, or from JSON parsing of the
upstream body whenever that parse is reached (it is skipped only on the
non-2xx non-JSON-typed early return), yields status 500 with the body
saying "Internal server error during image generation call.". -/
theorem exception_500 (s tok : String)
    (hvalid : trimChars s.data ≠ []) (htok : tok.data ≠ []) :
    (handleGenerateImage (some (Json.str s)) (some tok) FetchOutcome.throws).2
        = internalError ∧
    ∀ st ct, (respOk st = true ∨ contentTypeIsJson ct = true) →
      (handleGenerateImage (some (Json.str s)) (some tok)
          (FetchOutcome.success ⟨st, ct, none⟩)).2
        = internalError := by
  constructor
  · rw [handle_valid s tok FetchOutcome.throws hvalid htok]
    rfl
  · intro st ct hreach
    rw [handle_valid s tok _ hvalid htok]
    show processUpstream (FetchOutcome.success ⟨st, ct, none⟩) = internalError
    rcases hreach with hok | hct
    · simp [processUpstream, hok]
    · simp [processUpstream, hct]

/-- C6 witness: a rejected outbound call on a valid, configured request. -/
theorem exception_500_witness :
    (handleGenerateImage (some (Json.str "a cat")) (some "tok")
        FetchOutcome.throws).2 = internalError :=
  (exception_500 "a cat" "tok" (by decide) (by decide)).1

/-- C7: for every request that passes validation and the configuration
check, the handler issues exactly one outbound POST (a singleton list of
calls, never a retry) to the fixed provider endpoint, with the
credential in a bearer-style Authorization header, a Prefer header
asking the provider to wait, and as JSON body exactly the object
input.prompt = trimmed description, input.prompt_upsampling = true. -/
theorem single_outbound_request (s tok : String) (fetch : FetchOutcome)
    (hvalid : trimChars s.data ≠ []) (htok : tok.data ≠ []) :
    (handleGenerateImage (some (Json.str s)) (some tok) fetch).1
        = [mkReplicateRequest (jsTrim s) tok] ∧
    mkReplicateRequest (jsTrim s) tok =
      { url := "https://api.replicate.com/v1/models/black-forest-labs/flux-1.1-pro/predictions"
        method := "POST"
        authorization := "Bearer " ++ tok
        contentType := "application/json"
        prefer := "wait"
        body := Json.obj [("input", Json.obj [("prompt", Json.str (jsTrim s)),
                                              ("prompt_upsampling", Json.bool true)])] } := by
  constructor
  · rw [handle_valid s tok fetch hvalid htok]
  · rfl

/-- C7 witness: the single outbound call for a concrete valid request. -/
theorem single_outbound_request_witness :
    (handleGenerateImage (some (Json.str "  a cat ")) (some "tok")
        FetchOutcome.throws).1 = [mkReplicateRequest (jsTrim "  a cat ") "tok"] :=
  (single_outbound_request "  a cat " "tok" FetchOutcome.throws
    (by decide) (by decide)).1

/-- C10: the handler is invariant under whitespace-trimming of the
description: a request with description `s` produces the same outbound
provider requests and the same response as one with the already-trimmed
description, and any outbound call it makes carries the trimmed prompt,
so leading and trailing whitespace never reach the provider. -/
theorem trim_invariance (s : String) (token : Option String) (fetch : FetchOutcome) :
    handleGenerateImage (some (Json.str s)) token fetch
        = handleGenerateImage (some (Json.str (jsTrim s))) token fetch ∧
    ((handleGenerateImage (some (Json.str s)) token fetch).1 = [] ∨
      ∃ tok, token = some tok ∧
        (handleGenerateImage (some (Json.str s)) token fetch).1
          = [mkReplicateRequest (jsTrim s) tok]) := by
  constructor
  · exact handle_congr _ _ token fetch (validDescription_trim s).symm
  · cases hcs : trimChars s.data with
    | nil =>
        left
        simp [handleGenerateImage, validDescription, hcs]
    | cons c cs =>
        cases token with
        | none =>
            left
            simp [handleGenerateImage, validDescription, hcs, tokenTruthy]
        | some tok =>
            cases hd : tok.data with
            | nil =>
                left
                simp [handleGenerateImage, validDescription, hcs, tokenTruthy, hd]
            | cons a as =>
                right
                refine ⟨tok, rfl, ?_⟩
                rw [(handle_valid s tok fetch (by rw [hcs]; simp) (by rw [hd]; simp))]

/-- C1: for a 2xx upstream response whose body parsed to `data`, the
handler returns 200 with body imageUrl = candidate exactly when the
body's status field equals "succeeded" or "processing", an output field
is present, and the candidate (first element of a non-empty array
output, or a string output itself) is a string starting with "http";
in every other 2xx case the status is not 200. -/
theorem generate_image_success_iff (st : Nat) (ct : Option String) (data : Json)
    (h2xx : 200 ≤ st ∧ st ≤ 299) :
    (∀ s, specCandidate (data.getField "output") = some (Json.str s) →
        strStartsWith s "http" = true →
        (data.getField "status" = some (Json.str "succeeded") ∨
         data.getField "status" = some (Json.str "processing")) →
        processUpstream (FetchOutcome.success ⟨st, ct, some data⟩)
          = ⟨200, Json.obj [("imageUrl", Json.str s)]⟩) ∧
    ((processUpstream (FetchOutcome.success ⟨st, ct, some data⟩)).status = 200 →
      (data.getField "status" = some (Json.str "succeeded") ∨
       data.getField "status" = some (Json.str "processing")) ∧
      (data.getField "output").isSome = true ∧
      ∃ s, specCandidate (data.getField "output") = some (Json.str s) ∧
        strStartsWith s "http" = true) := by
  have hok : respOk st = true := respOk_true h2xx.1 h2xx.2
  constructor
  · intro s hc hh hst
    have hn : data ≠ Json.null := by
      rcases hst with h | h
      · exact getField_some_ne_null h
      · exact getField_some_ne_null h
    rw [processUpstream_ok hok hn]
    have helig : statusEligible (data.getField "status") = true :=
      (statusEligible_iff _).mpr hst
    have htr : optTruthy (data.getField "output") = true :=
      optTruthy_of_candidate_http _ s hc hh
    have hext : extractImageUrl data = some (Json.str s) := by
      rw [extractImageUrl_eq_spec data helig htr, hc]
    exact successBranch_200 data s hext hh
  · intro h200
    by_cases hn : data = Json.null
    · rw [hn, processUpstream_ok_null hok] at h200
      simp [internalError] at h200
    · rw [processUpstream_ok hok hn] at h200
      obtain ⟨s, hext, hh⟩ := (successBranch_200_iff data).mp h200
      obtain ⟨helig, htr, hspec⟩ := extractImageUrl_some data _ hext
      exact ⟨(statusEligible_iff _).mp helig,
        specCandidate_isSome _ _ hspec, s, hspec, hh⟩

/-- C1 witness: a succeeded response with a one-element array output. -/
theorem generate_image_success_iff_witness :
    processUpstream (FetchOutcome.success ⟨200, none,
        some (Json.obj [("status", Json.str "succeeded"),
                        ("output", Json.arr [Json.str "http://x/img.png"])])⟩)
      = ⟨200, Json.obj [("imageUrl", Json.str "http://x/img.png")]⟩ :=
  (generate_image_success_iff 200 none
      (Json.obj [("status", Json.str "succeeded"),
                 ("output", Json.arr [Json.str "http://x/img.png"])])
      (by decide)).1
    "http://x/img.png" rfl (by decide) (Or.inl rfl)

/-- C2: for a non-2xx upstream response: if the body is not JSON-typed
the handler answers 502 with the generic connection-failure message
carrying the upstream status code, for every body alike (the body is
never parsed); if it is JSON-typed and the body parses to `data`, the
handler answers 502 with "Failed to generate image. " followed by the
detail, which is the body's error field when truthy, else its detail
field when truthy, else the generic string naming the upstream status. -/
theorem upstream_error_mapping (st : Nat) (ct : Option String) (body : Option Json)
    (hnon : ¬(200 ≤ st ∧ st ≤ 299)) :
    (contentTypeIsJson ct = false →
       processUpstream (FetchOutcome.success ⟨st, ct, body⟩)
         = ⟨502, errObj ("Image service connection failed with status: "
             ++ toString st)⟩) ∧
    strContains ("Image service connection failed with status: " ++ toString st)
        (toString st) = true ∧
    (∀ data, body = some data → contentTypeIsJson ct = true →
       processUpstream (FetchOutcome.success ⟨st, ct, body⟩)
         = ⟨502, errObj ("Failed to generate image. "
             ++ (errorDetail data st).jsToString)⟩) := by
  have hok : respOk st = false := respOk_false hnon
  refine ⟨?_, strContains_append_right _ _, ?_⟩
  · intro hct
    simp [processUpstream, hok, hct]
  · rintro data rfl hct
    simp [processUpstream, hok, hct]

/-- C2 witness: a 404 with no content-type is the generic 502, with the
status code in the message. -/
theorem upstream_error_mapping_witness :
    processUpstream (FetchOutcome.success ⟨404, none, none⟩)
      = ⟨502, errObj "Image service connection failed with status: 404"⟩ :=
  (upstream_error_mapping 404 none none (by decide)).1 rfl

/-- C3 counterexample: the claim as stated covers a 2xx upstream
response whose parsed body is the JSON literal null — the status field
is then missing and no candidate exists — yet the handler answers 500
through the catch block (the plain access responseData.status throws a
TypeError on a null body), not 502. -/
theorem extraction_failure_502_counterexample :
    processUpstream (FetchOutcome.success ⟨200, none, some Json.null⟩)
        = internalError ∧
    (processUpstream (FetchOutcome.success ⟨200, none, some Json.null⟩)).status
        ≠ 502 := by
  constructor
  · rfl
  · decide

/-- C3, amended: for a 2xx upstream response whose parsed body is not
the JSON literal null (on a null body the plain property accesses throw
and the handler answers 500 through the catch block instead), if
extraction fails — status field neither "succeeded" nor "processing",
or output missing, or the candidate not a string starting with "http" —
the handler returns 502 with a message embedding the observed
(stringified) value of the response's status field. -/
theorem extraction_failure_502 (st : Nat) (ct : Option String) (data : Json)
    (h2xx : 200 ≤ st ∧ st ≤ 299)
    (hnull : data ≠ Json.null)
    (hfail : ¬(data.getField "status" = some (Json.str "succeeded") ∨
               data.getField "status" = some (Json.str "processing")) ∨
             data.getField "output" = none ∨
             ¬∃ s, specCandidate (data.getField "output") = some (Json.str s) ∧
                 strStartsWith s "http" = true) :
    processUpstream (FetchOutcome.success ⟨st, ct, some data⟩)
        = ⟨502, errObj (failMessage data)⟩ ∧
    strContains (failMessage data) (jsDisplay (data.getField "status")) = true := by
  have hok : respOk st = true := respOk_true h2xx.1 h2xx.2
  constructor
  · rw [processUpstream_ok hok hnull]
    apply successBranch_fail
    intro s hext
    obtain ⟨helig, htr, hspec⟩ := extractImageUrl_some data _ hext
    rcases hfail with h | h | h
    · exact absurd ((statusEligible_iff _).mp helig) h
    · rw [h] at hspec
      cases hspec
    · by_cases hh : strStartsWith s "http" = true
      · exact absurd ⟨s, hspec, hh⟩ h
      · rwa [Bool.not_eq_true] at hh
  · exact strContains_mid _ _ _

/-- C3 witness: a 2xx body with status "failed" and no output gives 502
with the status value in the message. -/
theorem extraction_failure_502_witness :
    processUpstream (FetchOutcome.success ⟨200, none,
        some (Json.obj [("status", Json.str "failed")])⟩)
      = ⟨502, errObj
          "Image service returned status 'failed' or did not provide a valid image URL."⟩ :=
  (extraction_failure_502 200 none (Json.obj [("status", Json.str "failed")])
      (by decide) (fun h => Json.noConfusion h) (Or.inr (Or.inl rfl))).1

theorem failMessage_congr (d1 d2 : Json)
    (h : d1.getField "status" = d2.getField "status") :
    failMessage d1 = failMessage d2 := by
  unfold failMessage
  rw [h]

/-- C8: for every string u and 2xx upstream response, the handler's
result when the parsed body's output field is the string u is identical
(same status, same body) to its result when the output field is the
one-element array holding u, the status field (the only other field the
success logic reads) being equal. -/
theorem string_array_output_equiv (u : String) (st : Nat) (ct : Option String)
    (d1 d2 : Json) (h2xx : 200 ≤ st ∧ st ≤ 299)
    (hst : d1.getField "status" = d2.getField "status")
    (h1 : d1.getField "output" = some (Json.str u))
    (h2 : d2.getField "output" = some (Json.arr [Json.str u])) :
    processUpstream (FetchOutcome.success ⟨st, ct, some d1⟩)
      = processUpstream (FetchOutcome.success ⟨st, ct, some d2⟩) := by
  have hok : respOk st = true := respOk_true h2xx.1 h2xx.2
  have hn1 : d1 ≠ Json.null := getField_some_ne_null h1
  have hn2 : d2 ≠ Json.null := getField_some_ne_null h2
  rw [processUpstream_ok hok hn1, processUpstream_ok hok hn2]
  have hfm : failMessage d1 = failMessage d2 := failMessage_congr d1 d2 hst
  unfold successBranch extractImageUrl
  rw [h1, h2, hst, hfm]
  by_cases helig : statusEligible (d2.getField "status") = true
  · rw [helig]
    cases hu : u.data with
    | nil =>
        have htr1 : optTruthy (some (Json.str u)) = false := by
          simp [optTruthy, Json.truthy, hu]
        have hss : strStartsWith u "http" = false := by
          unfold strStartsWith
          rw [hu]
          rfl
        simp [htr1, optTruthy, Json.truthy, hss, hu]
    | cons c cs =>
        have htr1 : optTruthy (some (Json.str u)) = true := by
          simp [optTruthy, Json.truthy, hu]
        simp [htr1, optTruthy, Json.truthy, hu]
  · rw [Bool.not_eq_true] at helig
    rw [helig]
    simp

/-- C8 witness: the two output forms of one URL give the same result. -/
theorem string_array_output_equiv_witness :
    processUpstream (FetchOutcome.success ⟨200, none,
        some (Json.obj [("status", Json.str "succeeded"),
                        ("output", Json.str "http://x/img.png")])⟩)
      = processUpstream (FetchOutcome.success ⟨200, none,
          some (Json.obj [("status", Json.str "succeeded"),
                          ("output", Json.arr [Json.str "http://x/img.png"])])⟩) :=
  string_array_output_equiv "http://x/img.png" 200 none
    (Json.obj [("status", Json.str "succeeded"),
               ("output", Json.str "http://x/img.png")])
    (Json.obj [("status", Json.str "succeeded"),
               ("output", Json.arr [Json.str "http://x/img.png"])])
    (by decide) rfl rfl rfl

theorem successBranch_shape (data : Json) :
    ((successBranch data).status = 200 ∧
       ∃ s, (successBranch data).body = Json.obj [("imageUrl", Json.str s)]) ∨
    ((successBranch data).status = 502 ∧
       ∃ e, (successBranch data).body = Json.obj [("error", Json.str e)]) := by
  by_cases h200 : (successBranch data).status = 200
  · obtain ⟨s, hext, hh⟩ := (successBranch_200_iff data).mp h200
    rw [successBranch_200 data s hext hh]
    exact Or.inl ⟨rfl, s, rfl⟩
  · have hfail : successBranch data = ⟨502, errObj (failMessage data)⟩ := by
      apply successBranch_fail
      intro s hs
      by_cases hh : strStartsWith s "http" = true
      · exact absurd ((successBranch_200_iff data).mpr ⟨s, hs, hh⟩) h200
      · rwa [Bool.not_eq_true] at hh
    rw [hfail]
    exact Or.inr ⟨rfl, failMessage data, rfl⟩

theorem okBody_shape (data : Json) :
    ((okBody data).status = 200 ∧
       ∃ s, (okBody data).body = Json.obj [("imageUrl", Json.str s)]) ∨
    (((okBody data).status = 500 ∨ (okBody data).status = 502) ∧
       ∃ e, (okBody data).body = Json.obj [("error", Json.str e)]) := by
  by_cases hn : data = Json.null
  · subst hn
    exact Or.inr ⟨Or.inl rfl,
      "Internal server error during image generation call.", rfl⟩
  · rw [okBody_ne_null hn]
    rcases successBranch_shape data with ⟨h200, s, hbody⟩ | ⟨h502, e, hbody⟩
    · exact Or.inl ⟨h200, s, hbody⟩
    · exact Or.inr ⟨Or.inr h502, e, hbody⟩

theorem processUpstream_shape (fetch : FetchOutcome) :
    ((processUpstream fetch).status = 200 ∧
       ∃ s, (processUpstream fetch).body = Json.obj [("imageUrl", Json.str s)]) ∨
    (((processUpstream fetch).status = 500 ∨ (processUpstream fetch).status = 502) ∧
       ∃ e, (processUpstream fetch).body = Json.obj [("error", Json.str e)]) := by
  cases fetch with
  | throws =>
      exact Or.inr ⟨Or.inl rfl,
        "Internal server error during image generation call.", rfl⟩
  | success resp =>
      simp only [processUpstream]
      cases hc : !respOk resp.httpStatus && !contentTypeIsJson resp.contentType with
      | true =>
          exact Or.inr ⟨Or.inr rfl,
            "Image service connection failed with status: "
              ++ toString resp.httpStatus, rfl⟩
      | false =>
          cases hb : resp.bodyJson with
          | none =>
              exact Or.inr ⟨Or.inl rfl,
                "Internal server error during image generation call.", rfl⟩
          | some data =>
              cases hok : respOk resp.httpStatus with
              | false =>
                  exact Or.inr ⟨Or.inr rfl,
                    "Failed to generate image. "
                      ++ (errorDetail data resp.httpStatus).jsToString, rfl⟩
              | true => exact okBody_shape data

theorem handle_eq_400 (d : Option Json) (token : Option String) (fetch : FetchOutcome)
    (hv : validDescription d = none) :
    handleGenerateImage d token fetch
      = ([], ⟨400, errObj "Missing or invalid image description."⟩) := by
  simp [handleGenerateImage, hv]

theorem handle_eq_500 (d : Option Json) (token : Option String) (fetch : FetchOutcome)
    (trimmed : String) (hv : validDescription d = some trimmed)
    (ht : tokenTruthy token = false) :
    handleGenerateImage d token fetch
      = ([], ⟨500, errObj "Image generation service is not configured correctly."⟩) := by
  simp [handleGenerateImage, hv, ht]

theorem handle_eq_call (d : Option Json) (tok : String) (fetch : FetchOutcome)
    (trimmed : String) (hv : validDescription d = some trimmed)
    (ht : tokenTruthy (some tok) = true) :
    handleGenerateImage d (some tok) fetch
      = ([mkReplicateRequest trimmed tok], processUpstream fetch) := by
  simp [handleGenerateImage, hv, ht]

/-- C9: every invocation of the handler returns exactly one response,
its status is 200, 400, 500 or 502, and its body is a one-field JSON
object: an imageUrl string exactly when the status is 200, an error
string otherwise. -/
theorem response_shape_total (d : Option Json) (token : Option String)
    (fetch : FetchOutcome) :
    ((handleGenerateImage d token fetch).2.status = 200 ∧
       ∃ s, (handleGenerateImage d token fetch).2.body
              = Json.obj [("imageUrl", Json.str s)]) ∨
    (((handleGenerateImage d token fetch).2.status = 400 ∨
      (handleGenerateImage d token fetch).2.status = 500 ∨
      (handleGenerateImage d token fetch).2.status = 502) ∧
       ∃ e, (handleGenerateImage d token fetch).2.body
              = Json.obj [("error", Json.str e)]) := by
  cases hv : validDescription d with
  | none =>
      rw [handle_eq_400 d token fetch hv]
      exact Or.inr ⟨Or.inl rfl, "Missing or invalid image description.", rfl⟩
  | some trimmed =>
      cases ht : tokenTruthy token with
      | false =>
          rw [handle_eq_500 d token fetch trimmed hv ht]
          exact Or.inr ⟨Or.inr (Or.inl rfl),
            "Image generation service is not configured correctly.", rfl⟩
      | true =>
          cases token with
          | none => simp [tokenTruthy] at ht
          | some tok =>
              rw [handle_eq_call d tok fetch trimmed hv ht]
              rcases processUpstream_shape fetch with ⟨h200, s, hbody⟩ | ⟨hst, e, hbody⟩
              · exact Or.inl ⟨h200, s, hbody⟩
              · rcases hst with h5 | h5
                · exact Or.inr ⟨Or.inr (Or.inl h5), e, hbody⟩
                · exact Or.inr ⟨Or.inr (Or.inr h5), e, hbody⟩
